import Mathlib

/-!
Shallow embedding of the geometry and stacking core of `container_tool`
(`src/container_tool/core/models.py`, `collision.py`, `stack.py`).

Conventions of the embedding:
* Python `int` millimetre values are `Int`; Python `float` values that arise
  from halving or converting integers are `ℚ` (exact for every value the code
  produces).
* Python exceptions are modelled with `Except PyErr`; in-place mutation of a
  record is modelled by returning the updated record.
* CPython object identity (the `is` operator) is modelled by an explicit
  `pyid : Nat` tag on the items handed to the collision engine.
* `models.Stack` is a `@dataclass(slots=True)` whose `__post_init__` rejects an
  empty `_boxes` list, so a live `Stack` value always has a first box; we encode
  the list `_boxes` as `first :: rest`.  Construction with its validation is
  `mkStack`.
-/

namespace ContainerTool

/-- Python exception kinds raised by the modelled code paths
(`ValidationError`/`GeometryError` from `models.py`, plus the built-in
`TypeError` and `AttributeError`). -/
inductive PyErr where
  | validationError (msg : String)
  | geometryError (msg : String)
  | typeError (msg : String)
  | attributeError (msg : String)
deriving DecidableEq

/-- Container record from `models.py` (`@dataclass(slots=True) class Container`).
The aliases `length`/`width` are properties returning `inner_length_mm` /
`inner_width_mm`; attribute lookups through them are inlined where used. -/
structure Container where
  id : String
  name : String
  inner_length_mm : Int
  inner_width_mm : Int
  inner_height_mm : Int
  door_height_mm : Int
deriving DecidableEq

/-- Box record from `models.py` (`@dataclass(slots=True) class Box`). -/
structure Box where
  name : String
  length_mm : Int
  width_mm : Int
  height_mm : Int
  weight_kg : ℚ := 0
  color_hex : String := "#FFFFFF"
  pos_x_mm : Int := 0
  pos_y_mm : Int := 0
  rot_deg : Int := 0
deriving DecidableEq

/-- Validation performed by `Box.__post_init__`: rotation is 0 or 90 and the
three dimensions are positive. -/
def Box.valid (b : Box) : Prop :=
  (b.rot_deg = 0 ∨ b.rot_deg = 90) ∧ 0 < b.length_mm ∧ 0 < b.width_mm ∧ 0 < b.height_mm

/-- `Box.bbox`: `(x_min, y_min, x_max, y_max)`; length and width swap when
`rot_deg` is not 0. -/
def Box.bbox (b : Box) : Int × Int × Int × Int :=
  if b.rot_deg = 0 then
    (b.pos_x_mm, b.pos_y_mm, b.pos_x_mm + b.length_mm, b.pos_y_mm + b.width_mm)
  else
    (b.pos_x_mm, b.pos_y_mm, b.pos_x_mm + b.width_mm, b.pos_y_mm + b.length_mm)

/-- `Box.center`: midpoint of the bounding box, a pair of Python floats. -/
def Box.center (b : Box) : ℚ × ℚ :=
  match b.bbox with
  | (x0, y0, x1, y1) => (((x0 : ℚ) + (x1 : ℚ)) / 2, ((y0 : ℚ) + (y1 : ℚ)) / 2)

/-- `Box.rotate`: toggle `rot_deg` between 0 and 90. -/
def Box.rotate (b : Box) : Box :=
  { b with rot_deg := if b.rot_deg = 0 then 90 else 0 }

/-- Stack record from `models.py`.  Its `_boxes` list is `first :: rest`
(`__post_init__` rejects an empty list, so a live value is never empty); the
field `SNAP_TOLERANCE_MM` defaults to 10 as in the dataclass. -/
structure Stack where
  name : String
  first : Box
  rest : List Box
  SNAP_TOLERANCE_MM : Int := 10
deriving DecidableEq

/-- The `_boxes` list of a stack. -/
def Stack.allBoxes (s : Stack) : List Box := s.first :: s.rest

/-- Property `Stack.pos_x_mm`: position of the first box. -/
def Stack.pos_x_mm (s : Stack) : Int := s.first.pos_x_mm

/-- Property `Stack.pos_y_mm`: position of the first box. -/
def Stack.pos_y_mm (s : Stack) : Int := s.first.pos_y_mm

/-- Property `Stack.rot_deg`: rotation of the first box. -/
def Stack.rot_deg (s : Stack) : Int := s.first.rot_deg

/-- Property `Stack.length_mm`: first box's length, swapped with the width when
the stack is rotated. -/
def Stack.length_mm (s : Stack) : Int :=
  if s.rot_deg = 0 then s.first.length_mm else s.first.width_mm

/-- Property `Stack.width_mm`: first box's width, swapped with the length when
the stack is rotated. -/
def Stack.width_mm (s : Stack) : Int :=
  if s.rot_deg = 0 then s.first.width_mm else s.first.length_mm

/-- Property `Stack.height_mm`: the FIRST box's height (not the total). -/
def Stack.height_mm (s : Stack) : Int := s.first.height_mm

/-- `Stack.bbox`: same shape as `Box.bbox` but over the stack's derived
`length_mm`/`width_mm` properties (which are already rotation-swapped). -/
def Stack.bbox (s : Stack) : Int × Int × Int × Int :=
  if s.rot_deg = 0 then
    (s.pos_x_mm, s.pos_y_mm, s.pos_x_mm + s.length_mm, s.pos_y_mm + s.width_mm)
  else
    (s.pos_x_mm, s.pos_y_mm, s.pos_x_mm + s.width_mm, s.pos_y_mm + s.length_mm)

/-- `Stack._center`: the first box's center. -/
def Stack.center (s : Stack) : ℚ × ℚ := s.first.center

/-- `Stack.total_height_mm`: `self.height_mm * len(self._boxes)`, i.e. the
first box's height times the number of member boxes. -/
def Stack.total_height_mm (s : Stack) : Int := s.height_mm * (s.allBoxes.length : Int)

/-- `Stack.total_weight_kg`: sum of the member boxes' weights. -/
def Stack.total_weight_kg (s : Stack) : ℚ := (s.allBoxes.map Box.weight_kg).sum

/-- `Stack.box_count`: `len(self._boxes)`. -/
def Stack.box_count (s : Stack) : Nat := s.allBoxes.length

/-- `Stack.fits`: the box must match the first box in length, width and
rotation, and both centers must agree within the instance's snap tolerance on
each axis. -/
def Stack.fits (s : Stack) (box : Box) : Bool :=
  if !(box.length_mm == s.first.length_mm && box.width_mm == s.first.width_mm
        && box.rot_deg == s.first.rot_deg) then
    false
  else
    decide (|s.center.1 - box.center.1| ≤ (s.SNAP_TOLERANCE_MM : ℚ)) &&
    decide (|s.center.2 - box.center.2| ≤ (s.SNAP_TOLERANCE_MM : ℚ))

/-- `Stack.add_box`: raises `GeometryError` unless the box fits, otherwise
snaps the box's position to the stack's and appends it to `_boxes`. -/
def Stack.add_box (s : Stack) (box : Box) : Except PyErr Stack :=
  if !(s.fits box) then
    .error (.geometryError "Box passt nicht auf diesen Stapel.")
  else
    .ok { s with rest :=
            s.rest ++ [{ box with pos_x_mm := s.pos_x_mm, pos_y_mm := s.pos_y_mm }] }

/-- `Stack.rotate`: rotates every member box by 90 degrees. -/
def Stack.rotate (s : Stack) : Stack :=
  { s with first := s.first.rotate, rest := s.rest.map Box.rotate }

/-- Construction of a `models.Stack`, including `__post_init__`: the list must
be non-empty and every box after the first must share the first box's length,
width and rotation; otherwise `ValidationError` is raised. -/
def mkStack (name : String) (boxes : List Box) : Except PyErr Stack :=
  match boxes with
  | [] => .error (.validationError "Ein Stack benoetigt mindestens eine Box.")
  | first :: rest =>
      if rest.all (fun b =>
            b.length_mm == first.length_mm && b.width_mm == first.width_mm
              && b.rot_deg == first.rot_deg) then
        .ok { name := name, first := first, rest := rest }
      else
        .error (.validationError "Alle Boxen muessen Laenge, Breite und Rotation teilen.")

/-! Embedding of `collision.py`.  The module works on duck-typed objects; the
repository only ever passes `models.Box` and `models.Stack` values, modelled by
`Item` below.  CPython object identity (`other is candidate`) is modelled by an
explicit `pyid` tag. -/

/-- Bounding box of Python floats `(x_min, y_min, x_max, y_max)`. -/
structure BBoxQ where
  x0 : ℚ
  y0 : ℚ
  x1 : ℚ
  y1 : ℚ
deriving DecidableEq

/-- An object handed to the collision engine: a `Box` or a `Stack`, tagged with
its CPython object identity. -/
inductive Item where
  | box (pyid : Nat) (b : Box)
  | stk (pyid : Nat) (s : Stack)
deriving DecidableEq

/-- Identity tag of an item (models the `is` operator). -/
def Item.pyid : Item → Nat
  | .box i _ => i
  | .stk i _ => i

/-- Conversion of an integer bbox tuple to the float bbox used in
`collision.py` (`tuple(map(float, obj.bbox()))`). -/
def toBBoxQ (t : Int × Int × Int × Int) : BBoxQ :=
  ⟨(t.1 : ℚ), (t.2.1 : ℚ), (t.2.2.1 : ℚ), (t.2.2.2 : ℚ)⟩

/-- `_get_bbox`: both `Box` and `Stack` expose a callable `bbox()`, so the
fallback branch is never taken for repository objects. -/
def get_bbox : Item → BBoxQ
  | .box _ b => toBBoxQ b.bbox
  | .stk _ s => toBBoxQ s.bbox

/-- `_is_stack`: duck-typing check `obj.__class__.__name__.lower().startswith("stack")
or hasattr(obj, "layers")`; true exactly for `Stack` values, false for `Box`
values (whose class name is `box` and which have no `layers` attribute). -/
def is_stack : Item → Bool
  | .box .. => false
  | .stk .. => true

/-- `_get_height`: `float(getattr(obj, "height", getattr(obj, "height_mm", 0.0)))`.
A `Box` has a `height` property aliasing `height_mm`.  `models.Stack` is a
slots dataclass with NO `height` attribute, so the lookup falls back to
`Stack.height_mm`, which is the FIRST box's height — not the stack's total
height. -/
def get_height : Item → ℚ
  | .box _ b => (b.height_mm : ℚ)
  | .stk _ s => (s.height_mm : ℚ)

/-- `_exceeds_door_height`: the resolved height is compared against the
container's door height (`door_height` is absent on `models.Container`, so the
lookup resolves to `door_height_mm`, positive by validation). -/
def exceeds_door_height (it : Item) (c : Container) : Bool :=
  decide ((c.door_height_mm : ℚ) < get_height it)

/-- `overlaps`: axis-aligned overlap test with strict separation — edge-to-edge
contact does not count as overlap. -/
def overlaps (a b : BBoxQ) : Bool :=
  if a.x1 ≤ b.x0 ∨ b.x1 ≤ a.x0 then false
  else if a.y1 ≤ b.y0 ∨ b.y1 ≤ a.y0 then false
  else true

/-- `is_within_container`: the bounding box must lie inside
`[0, inner_length] x [0, inner_width]`, edges inclusive.  On `models.Container`
the `inner_length`/`inner_width` attributes are absent and the `length`/`width`
properties resolve to `inner_length_mm`/`inner_width_mm` (positive by
validation, so the falsy-`or` chain never yields `None`). -/
def is_within_container (it : Item) (c : Container) : Bool :=
  let bb := get_bbox it
  decide (0 ≤ bb.x0) && decide (bb.x1 ≤ (c.inner_length_mm : ℚ)) &&
  decide (0 ≤ bb.y0) && decide (bb.y1 ≤ (c.inner_width_mm : ℚ))

/-- `_CELL_SIZE`: spatial-grid cell size in millimetres. -/
def CELL_SIZE : ℚ := 1000

/-- Integer range `[lo, hi]` inclusive, the contents of Python's
`range(lo, hi + 1)`. -/
def intRange (lo hi : Int) : List Int :=
  (List.range (hi + 1 - lo).toNat).map (fun (i : Nat) => lo + (i : Int))

/-- `_cells_for_bbox`: all grid cells intersected by a bounding box, via floor
division of the min/max coordinates by the cell size (outer loop over x,
inner loop over y, as in the list comprehension). -/
def cells_for_bbox (bb : BBoxQ) : List (Int × Int) :=
  (intRange (bb.x0 / CELL_SIZE).floor (bb.x1 / CELL_SIZE).floor).flatMap (fun ix =>
    (intRange (bb.y0 / CELL_SIZE).floor (bb.y1 / CELL_SIZE).floor).map (fun iy => (ix, iy)))

/-- Lookup `spatial_index.get(cell, ())` after `_build_spatial_grid(placed)`:
the grid files every object under each cell its bbox intersects, preserving
placement order, so the bucket of `cell` is exactly the placed items whose
cells contain `cell`, in order. -/
def grid_get (placed : List Item) (cell : Int × Int) : List Item :=
  placed.filter (fun o => decide (cell ∈ cells_for_bbox (get_bbox o)))

/-- Entries of the offenders list returned by `check_collisions`: a geometric
object, or the distinguished string `DOOR_HEIGHT_COLLISION`. -/
inductive Offender where
  | item (o : Item)
  | doorHeightSentinel
deriving DecidableEq

/-- Phase 3 of `check_collisions`: iterate over the candidate's grid cells and
append every bucketed object that is not identity-equal to the candidate and
whose bbox overlaps the candidate's.  There is no duplicate filtering, so an
object is appended once per shared cell. -/
def overlap_offenders (cand : Item) (placed : List Item) : List Offender :=
  (cells_for_bbox (get_bbox cand)).flatMap (fun cell =>
    ((grid_get placed cell).filter (fun other =>
        (other.pyid != cand.pyid) && overlaps (get_bbox cand) (get_bbox other))).map
      Offender.item)

/-- `check_collisions`: boundary check, door-height check (stacks only), then
grid-based overlap check; `ok` is true iff the collected list is empty. -/
def check_collisions (cand : Item) (placed : List Item) (c : Container) :
    Bool × List Offender :=
  let boundary : List Offender :=
    if is_within_container cand c then [] else [Offender.item cand]
  let door : List Offender :=
    if is_stack cand && exceeds_door_height cand c then [Offender.doorHeightSentinel]
    else []
  let collisions := boundary ++ door ++ overlap_offenders cand placed
  (collisions.isEmpty, collisions)

/-! Embedding of `stack.py`.  This module has drifted from `models.py` (the
spec's design notes flag the drift): it assumes a `Stack` with a plain `boxes`
attribute, direct-field construction and a writable `height_mm`, none of which
exist on the canonical `models.Stack` slots dataclass.  Each such Python-level
failure point is modelled by its own definition below, so every attribute or
constructor fact is stated exactly once. -/

/-- Value of the class-attribute lookup `getattr(Stack, "SNAP_TOLERANCE_MM", 10)`:
an `int` or a slot member descriptor. -/
inductive TolLookup where
  | intVal (n : Int)
  | memberDescriptor
deriving DecidableEq

/-- `_snap_tolerance`: `getattr(Stack, "SNAP_TOLERANCE_MM", 10)`.  Because
`models.Stack` is declared with `@dataclass(slots=True)`, the field default is
removed from the class namespace and the name resolves on the class to the
slot's member descriptor; the attribute exists, so the getattr default `10` is
not used. -/
def snap_tolerance : TolLookup := .memberDescriptor

/-- Python comparison `q <= tol` between a float and the result of
`_snap_tolerance()`: defined for an `int`, a `TypeError` for a member
descriptor (no ordering between `float` and `member_descriptor`). -/
def pyLeTol (q : ℚ) (tol : TolLookup) : Except PyErr Bool :=
  match tol with
  | .intVal n => .ok (decide (q ≤ (n : ℚ)))
  | .memberDescriptor =>
      .error (.typeError "le not supported between float and member_descriptor")

/-- `_box_center`: `models.Box` has no `center_x_mm`/`center_y_mm`, so the
fallback `(pos + length/2, pos + width/2)` is used — without rotation
adjustment. -/
def box_center (b : Box) : ℚ × ℚ :=
  ((b.pos_x_mm : ℚ) + (b.length_mm : ℚ) / 2, (b.pos_y_mm : ℚ) + (b.width_mm : ℚ) / 2)

/-- `_dimensions_identical`: equal length, width and rotation. -/
def dimensions_identical (a b : Box) : Bool :=
  a.length_mm == b.length_mm && a.width_mm == b.width_mm && a.rot_deg == b.rot_deg

/-- `_within_snap_tolerance`: `abs(acx - bcx) <= tol and abs(acy - bcy) <= tol`
with `tol = _snap_tolerance()`; the left comparison is evaluated first and any
`TypeError` it raises propagates. -/
def within_snap_tolerance (a b : Box) : Except PyErr Bool := do
  let xok ← pyLeTol |(box_center a).1 - (box_center b).1| snap_tolerance
  if xok then
    pyLeTol |(box_center a).2 - (box_center b).2| snap_tolerance
  else
    pure false

/-- `_remaining_height_ok`: `current + next <= door_height`. -/
def remaining_height_ok (current_height_mm next_height_mm door_height_mm : Int) : Bool :=
  current_height_mm + next_height_mm ≤ door_height_mm

/-- `can_stack`: dimensions identical, centers within snap tolerance, combined
height at most the door height — except that the snap-tolerance comparison
raises (see `snap_tolerance`). -/
def can_stack (box_a box_b : Box) (c : Container) : Except PyErr Bool := do
  if !dimensions_identical box_a box_b then
    return false
  let w ← within_snap_tolerance box_a box_b
  if !w then
    return false
  if !remaining_height_ok box_a.height_mm box_b.height_mm c.door_height_mm then
    return false
  return true

/-- Validation loop of `create_stack` over `boxes[1:]`: the first failing box
raises `GeometryError`; an exception from `can_stack` itself propagates. -/
def validate_against_first (first : Box) (c : Container) : List Box → Except PyErr Unit
  | [] => .ok ()
  | bx :: more => do
      let ok ← can_stack first bx c
      if ok then
        validate_against_first first c more
      else
        .error (.geometryError "Box ist nicht stapelbar mit der ersten Box.")

/-- Call `Stack(name=..., boxes=..., pos_x_mm=..., pos_y_mm=..., height_mm=...)`
at the end of `create_stack`: the generated `__init__` of the canonical
`models.Stack` accepts only `name`, `_boxes` and `SNAP_TOLERANCE_MM`, so the
keyword `boxes` raises `TypeError`. -/
def stackConstructorKw : Except PyErr Stack :=
  .error (.typeError "Stack init got an unexpected keyword argument boxes")

/-- `create_stack`: empty list raises `GeometryError`; every later box is
validated against the first via `can_stack`; the summed height is checked
against the door height; the boxes are snapped to the first box's position
(observably a no-op, since the snap loop is reached only for a single-box
list); finally the drifted `Stack(...)` call raises (see
`stackConstructorKw`). -/
def create_stack (boxes : List Box) (c : Container) : Except PyErr Stack := do
  match boxes with
  | [] => .error (.geometryError "Die Box-Liste ist leer.")
  | first :: rest => do
      validate_against_first first c rest
      let total_height := ((first :: rest).map Box.height_mm).sum
      if total_height > c.door_height_mm then
        .error (.geometryError "Gesamthoehe ueberschreitet die Tuerhoehe.")
      else
        stackConstructorKw

/-- Read `stack.boxes` on the canonical `models.Stack`: the slots dataclass has
a `_boxes` field and no `boxes` attribute, so the access raises
`AttributeError`. -/
def stackGetattrBoxes (_ : Stack) : Except PyErr (List Box) :=
  .error (.attributeError "Stack object has no attribute boxes")

/-- Write `stack.height_mm += box.height_mm`: `Stack.height_mm` is a read-only
property, so the assignment raises `AttributeError`. -/
def stackSetHeight (_ : Stack) (_ : Int) : Except PyErr Stack :=
  .error (.attributeError "property height_mm of Stack object has no setter")

/-- `add_to_stack`: reads `stack.boxes` first (see `stackGetattrBoxes`), then —
were that read possible — would check emptiness, dimensions, snap tolerance and
door height, snap and append the box, and bump the recorded height. -/
def add_to_stack (stack : Stack) (box : Box) (c : Container) : Except PyErr Stack := do
  let sboxes ← stackGetattrBoxes stack
  match sboxes with
  | [] => .error (.geometryError "Ungueltiger Stapel: enthaelt keine Boxen.")
  | reference_box :: _ => do
      if !dimensions_identical reference_box box then
        .error (.geometryError "Box-Abmessungen oder Rotation passen nicht.")
      else do
        let w ← within_snap_tolerance reference_box box
        if !w then
          .error (.geometryError "Box liegt ausserhalb der Snap-Toleranz.")
        else if !remaining_height_ok stack.height_mm box.height_mm c.door_height_mm then
          .error (.geometryError "Neue Stapelhoehe ueberschreitet die Tuerhoehe.")
        else
          stackSetHeight stack (stack.height_mm + box.height_mm)

/-! General lemmas about the embedded definitions. -/

/-- Batteries' `Rat.floor` agrees with Mathlib's `Int.floor` on `ℚ`. -/
theorem ratFloor_eq_intFloor (q : ℚ) : q.floor = ⌊q⌋ := by
  rw [Rat.floor_def']; exact Rat.floor_def.symm

/-- Characterisation of `overlaps` by four strict half-plane inequalities. -/
theorem overlaps_iff (a b : BBoxQ) :
    overlaps a b = true ↔ b.x0 < a.x1 ∧ a.x0 < b.x1 ∧ b.y0 < a.y1 ∧ a.y0 < b.y1 := by
  unfold overlaps
  by_cases h1 : a.x1 ≤ b.x0 ∨ b.x1 ≤ a.x0
  · rw [if_pos h1]
    simp only [Bool.false_eq_true, false_iff]
    rintro ⟨hx1, hx2, -, -⟩
    rcases h1 with h | h
    · exact absurd hx1 (not_lt.mpr h)
    · exact absurd hx2 (not_lt.mpr h)
  · rw [if_neg h1]
    push_neg at h1
    by_cases h2 : a.y1 ≤ b.y0 ∨ b.y1 ≤ a.y0
    · rw [if_pos h2]
      simp only [Bool.false_eq_true, false_iff]
      rintro ⟨-, -, hy1, hy2⟩
      rcases h2 with h | h
      · exact absurd hy1 (not_lt.mpr h)
      · exact absurd hy2 (not_lt.mpr h)
    · rw [if_neg h2]
      push_neg at h2
      simp only [true_iff]
      exact ⟨h1.1, h1.2, h2.1, h2.2⟩

/-- Membership in an inclusive integer range. -/
theorem mem_intRange {lo hi a : Int} : a ∈ intRange lo hi ↔ lo ≤ a ∧ a ≤ hi := by
  unfold intRange
  rw [List.mem_map]
  constructor
  · rintro ⟨i, hilt, rfl⟩
    rw [List.mem_range] at hilt
    omega
  · rintro ⟨h1, h2⟩
    refine ⟨(a - lo).toNat, ?_, ?_⟩
    · rw [List.mem_range]
      omega
    · omega

/-- Membership in the cell list of a bounding box. -/
theorem mem_cells_for_bbox {bb : BBoxQ} {ix iy : Int} :
    (ix, iy) ∈ cells_for_bbox bb ↔
      ((bb.x0 / CELL_SIZE).floor ≤ ix ∧ ix ≤ (bb.x1 / CELL_SIZE).floor) ∧
      ((bb.y0 / CELL_SIZE).floor ≤ iy ∧ iy ≤ (bb.y1 / CELL_SIZE).floor) := by
  unfold cells_for_bbox
  simp only [List.mem_flatMap, List.mem_map, Prod.mk.injEq]
  constructor
  · rintro ⟨jx, hjx, jy, hjy, rfl, rfl⟩
    exact ⟨mem_intRange.mp hjx, mem_intRange.mp hjy⟩
  · rintro ⟨hx, hy⟩
    exact ⟨ix, mem_intRange.mpr hx, iy, mem_intRange.mpr hy, rfl, rfl⟩

/-- A bounding box whose min coordinates do not exceed its max coordinates. -/
def ProperBBox (bb : BBoxQ) : Prop := bb.x0 ≤ bb.x1 ∧ bb.y0 ≤ bb.y1

/-- Two overlapping proper bounding boxes intersect at least one common grid
cell, namely the cell of the intersection's lower-left corner. -/
theorem overlaps_shared_cell {a b : BBoxQ} (ha : ProperBBox a) (hb : ProperBBox b)
    (h : overlaps a b = true) :
    ∃ cell : Int × Int, cell ∈ cells_for_bbox a ∧ cell ∈ cells_for_bbox b := by
  obtain ⟨hx1, hx2, hy1, hy2⟩ := (overlaps_iff a b).mp h
  refine ⟨(((max a.x0 b.x0) / CELL_SIZE).floor, ((max a.y0 b.y0) / CELL_SIZE).floor), ?_, ?_⟩
  · rw [mem_cells_for_bbox]
    simp only [ratFloor_eq_intFloor]
    have hcell : (0 : ℚ) < CELL_SIZE := by norm_num [CELL_SIZE]
    constructor
    · constructor
      · exact Int.floor_le_floor (by gcongr; exact le_max_left _ _)
      · exact Int.floor_le_floor (by gcongr; exact max_le ha.1 hx1.le)
    · constructor
      · exact Int.floor_le_floor (by gcongr; exact le_max_left _ _)
      · exact Int.floor_le_floor (by gcongr; exact max_le ha.2 hy1.le)
  · rw [mem_cells_for_bbox]
    simp only [ratFloor_eq_intFloor]
    have hcell : (0 : ℚ) < CELL_SIZE := by norm_num [CELL_SIZE]
    constructor
    · constructor
      · exact Int.floor_le_floor (by gcongr; exact le_max_right _ _)
      · exact Int.floor_le_floor (by gcongr; exact max_le hx2.le hb.1)
    · constructor
      · exact Int.floor_le_floor (by gcongr; exact le_max_right _ _)
      · exact Int.floor_le_floor (by gcongr; exact max_le hy2.le hb.2)

/-- C8: `overlaps` is symmetric, edge-touching boxes (such as
`(0,0,10,10)` against `(10,0,20,10)`) do not overlap, and the test is exactly
the conjunction of four strict half-plane inequalities. -/
theorem overlaps_symm_strict :
    (∀ a b : BBoxQ, overlaps a b = overlaps b a) ∧
    overlaps ⟨0, 0, 10, 10⟩ ⟨10, 0, 20, 10⟩ = false ∧
    (∀ a b : BBoxQ, overlaps a b = true ↔
      b.x0 < a.x1 ∧ a.x0 < b.x1 ∧ b.y0 < a.y1 ∧ a.y0 < b.y1) := by
  refine ⟨?_, by norm_num [overlaps], overlaps_iff⟩
  intro a b
  by_cases hab : overlaps a b = true
  · obtain ⟨h1, h2, h3, h4⟩ := (overlaps_iff a b).mp hab
    rw [hab, ((overlaps_iff b a).mpr ⟨h2, h1, h4, h3⟩).symm]
  · have hab' : overlaps a b = false := by
      cases h : overlaps a b
      · rfl
      · exact absurd h hab
    have hba : overlaps b a = false := by
      cases h : overlaps b a
      · rfl
      · obtain ⟨h1, h2, h3, h4⟩ := (overlaps_iff b a).mp h
        exact absurd ((overlaps_iff a b).mpr ⟨h2, h1, h4, h3⟩) hab
    rw [hab', hba]

/-! Concrete fixtures, taken from the repository's own test suites. -/

/-- Test container of `test_collision.py`: 1000 x 1000 x 2500, door 2000. -/
def contTest : Container :=
  { id := "test-ctn", name := "Test-Container", inner_length_mm := 1000,
    inner_width_mm := 1000, inner_height_mm := 2500, door_height_mm := 2000 }

/-- Standard 40 ft container of `test_stack.py`: 12000 x 2300 x 2393, door 2228. -/
def cont40 : Container :=
  { id := "40ft-std", name := "40 ft Standard Container", inner_length_mm := 12000,
    inner_width_mm := 2300, inner_height_mm := 2393, door_height_mm := 2228 }

/-- A 500 x 500 x 800 box at the origin (door-height test fixture). -/
def box800 : Box :=
  { name := "b0", length_mm := 500, width_mm := 500, height_mm := 800,
    color_hex := "#123456", pos_x_mm := 0, pos_y_mm := 0, rot_deg := 0 }

/-- Stack of three 800 mm boxes: total height 2400 mm, above the 2000 mm door. -/
def stack3x800 : Stack := { name := "test_stack", first := box800, rest := [box800, box800] }

/-- A single 500 x 500 x 2400 box. -/
def box2400 : Box :=
  { name := "tallbox", length_mm := 500, width_mm := 500, height_mm := 2400,
    pos_x_mm := 0, pos_y_mm := 0, rot_deg := 0 }

/-- Single-box stack taller than the 2000 mm door. -/
def stackTall : Stack := { name := "tall_stack", first := box2400, rest := [] }

/-- A 1500 x 500 x 200 box at the origin; its bounding box spans two grid cells. -/
def boxWide : Box :=
  { name := "wide", length_mm := 1500, width_mm := 500, height_mm := 200,
    pos_x_mm := 0, pos_y_mm := 0, rot_deg := 0 }

/-- Evaluation of the candidate/placed bounding boxes of the wide box. -/
theorem get_bbox_boxWide (i : Nat) : get_bbox (.box i boxWide) = ⟨0, 0, 1500, 500⟩ := by
  norm_num [get_bbox, toBBoxQ, Box.bbox, boxWide]

/-- The wide box's bounding box intersects the two grid cells (0,0) and (1,0). -/
theorem cells_boxWide : cells_for_bbox ⟨0, 0, 1500, 500⟩ = [(0, 0), (1, 0)] := by
  norm_num [cells_for_bbox, intRange, CELL_SIZE, ratFloor_eq_intFloor]
  decide

/-- With no placed items the overlap phase reports nothing. -/
theorem overlap_offenders_nil (cand : Item) : overlap_offenders cand [] = [] := by
  unfold overlap_offenders grid_get
  simp

/-- C1 (code bug): the door-height check does not use the stack's total
height.  `_get_height` falls back to `Stack.height_mm`, the first box's
height, so the spec's own example — a stack of three 800 mm boxes against a
2000 mm door — produces NO door-height sentinel: `check_collisions` returns
`(true, [])` although the total height is 2400 mm > 2000 mm. -/
theorem door_height_check_ignores_total_height :
    check_collisions (.stk 1 stack3x800) [] contTest = (true, []) ∧
    Stack.total_height_mm stack3x800 = 2400 ∧ contTest.door_height_mm = 2000 := by
  refine ⟨?_, by decide, by decide⟩
  unfold check_collisions
  rw [overlap_offenders_nil]
  decide

/-- C4 (counterexample): a placed item overlapping the candidate can appear in
the offenders list more than once — once per grid cell both bounding boxes
touch (here twice), so "exactly once" fails; and a stack candidate inside the
container bounds checked against an empty placed list can still return
`(false, [sentinel])` when its resolved height exceeds the door height. -/
theorem check_collisions_duplicate_offender :
    check_collisions (.box 1 boxWide) [.box 2 boxWide] cont40 =
      (false, [.item (.box 2 boxWide), .item (.box 2 boxWide)]) ∧
    check_collisions (.stk 1 stackTall) [] contTest =
      (false, [.doorHeightSentinel]) := by
  constructor
  · have hov : overlap_offenders (.box 1 boxWide) [.box 2 boxWide] =
        [.item (.box 2 boxWide), .item (.box 2 boxWide)] := by
      unfold overlap_offenders grid_get
      simp only [List.filter_cons, List.filter_nil, get_bbox_boxWide, cells_boxWide]
      decide
    unfold check_collisions
    rw [hov]
    decide
  · unfold check_collisions
    rw [overlap_offenders_nil]
    decide

/-- C4 (amended): `check_collisions` returns ok true iff the offenders list is
empty; each placed item distinct from the candidate whose (proper) bounding box
overlaps the candidate's (proper) bounding box appears in the offenders list at
least once — once per shared grid cell, so possibly more than once; and a
candidate inside the container bounds that does not trip the door-height check,
checked against an empty placed list, returns `(true, [])`. -/
theorem check_collisions_ok_iff_and_overlap_membership
    (cand : Item) (placed : List Item) (c : Container) :
    ((check_collisions cand placed c).1 = true ↔ (check_collisions cand placed c).2 = []) ∧
    (∀ o ∈ placed, o.pyid ≠ cand.pyid →
      ProperBBox (get_bbox cand) → ProperBBox (get_bbox o) →
      overlaps (get_bbox cand) (get_bbox o) = true →
      Offender.item o ∈ (check_collisions cand placed c).2) ∧
    (is_within_container cand c = true →
      (is_stack cand && exceeds_door_height cand c) = false →
      check_collisions cand [] c = (true, [])) := by
  refine ⟨?_, ?_, ?_⟩
  · simp only [check_collisions]
    exact List.isEmpty_iff
  · intro o hmem hne hpc hpo hov
    obtain ⟨cell, hc1, hc2⟩ := overlaps_shared_cell hpc hpo hov
    simp only [check_collisions]
    refine List.mem_append.mpr (Or.inr ?_)
    unfold overlap_offenders
    refine List.mem_flatMap.mpr ⟨cell, hc1, ?_⟩
    refine List.mem_map.mpr ⟨o, ?_, rfl⟩
    refine List.mem_filter.mpr ⟨?_, ?_⟩
    · unfold grid_get
      exact List.mem_filter.mpr ⟨hmem, by simpa using hc2⟩
    · simp only [Bool.and_eq_true, bne_iff_ne]
      exact ⟨hne, hov⟩
  · intro h1 h2
    unfold check_collisions
    rw [overlap_offenders_nil, h1, h2]
    simp

/-- Witness for the C4 amendment: the overlapping wide box is reported. -/
theorem check_collisions_ok_iff_and_overlap_membership_witness :
    Offender.item (.box 2 boxWide) ∈
      (check_collisions (.box 1 boxWide) [.box 2 boxWide] cont40).2 :=
  (check_collisions_ok_iff_and_overlap_membership
      (.box 1 boxWide) [.box 2 boxWide] cont40).2.1
    (.box 2 boxWide) (by simp) (by decide)
    (by constructor <;> decide) (by constructor <;> decide) (by decide)

/-! Fixtures for the stacking engine (values of `test_stack.py`). -/

/-- Base box of `test_stack.py`: 1000 x 1000 x 500 at (100, 200), rotation 0. -/
def boxBase : Box :=
  { name := "Box0", length_mm := 1000, width_mm := 1000, height_mm := 500,
    pos_x_mm := 100, pos_y_mm := 200, rot_deg := 0 }

/-- The base box rotated by 90 degrees. -/
def boxRotated : Box := { boxBase with rot_deg := 90 }

/-- The base box with a different length. -/
def boxLen900 : Box := { boxBase with length_mm := 900 }

/-- Tall box of `test_stack.py`: 1000 x 1000 x 1200 at the origin; two of them
sum to 2400 mm, above the 2228 mm door. -/
def tall1200 : Box :=
  { name := "Tall0", length_mm := 1000, width_mm := 1000, height_mm := 1200,
    pos_x_mm := 0, pos_y_mm := 0, rot_deg := 0 }

/-- A two-box stack of base boxes. -/
def stackBase2 : Stack := { name := "Stack_Box0", first := boxBase, rest := [boxBase] }

/-- A single-box stack of the tall box. -/
def stackSeven : Stack := { name := "Stack_Tall0", first := tall1200, rest := [] }

/-- C6 (code bug): `can_stack` never returns true.  As soon as the two boxes
have identical length, width and rotation, the snap-tolerance comparison
`abs(...) <= _snap_tolerance()` is evaluated against the class-level slot
member descriptor (the slots dataclass removed the field default `10` from the
class namespace) and raises `TypeError`; only the dimension-mismatch branches
return normally, with false. -/
theorem can_stack_raises_on_identical_dims :
    can_stack boxBase boxBase cont40 =
      .error (.typeError "le not supported between float and member_descriptor") ∧
    can_stack boxBase boxRotated cont40 = .ok false ∧
    can_stack boxBase boxLen900 cont40 = .ok false :=
  ⟨rfl, rfl, rfl⟩

/-- C2 (code bug): `create_stack` never returns a `Stack`.  With two or more
boxes the `can_stack` validation raises `TypeError` (snap-tolerance slot
descriptor); with a single box the validation is vacuous but the final
`Stack(name=..., boxes=..., ...)` call raises `TypeError` because the canonical
`models.Stack` constructor accepts no such keywords. -/
theorem create_stack_never_returns_stack :
    create_stack [boxBase, boxBase, boxBase] cont40 =
      .error (.typeError "le not supported between float and member_descriptor") ∧
    create_stack [boxBase] cont40 =
      .error (.typeError "Stack init got an unexpected keyword argument boxes") :=
  ⟨rfl, rfl⟩

/-- C3 (code bug): `add_to_stack` cannot mutate and return the stack — its very
first statement reads `stack.boxes`, which does not exist on the canonical
`models.Stack` slots dataclass, so the call raises `AttributeError` even for a
perfectly matching box. -/
theorem add_to_stack_attribute_error :
    add_to_stack stackBase2 boxBase cont40 =
      .error (.attributeError "Stack object has no attribute boxes") := rfl

/-- C7 (code bug): stacking failures are not uniformly geometry errors.  The
empty-list case and the single-box over-height case do raise `GeometryError`,
but `create_stack` on identical over-height boxes raises `TypeError` (snap
tolerance resolves to a slot descriptor), and `add_to_stack` on a mismatched
box raises `AttributeError` (reading the absent `stack.boxes`) before reaching
any geometry check. -/
theorem stacking_failures_not_all_geometry_errors :
    create_stack [] cont40 = .error (.geometryError "Die Box-Liste ist leer.") ∧
    create_stack [box2400] contTest =
      .error (.geometryError "Gesamthoehe ueberschreitet die Tuerhoehe.") ∧
    create_stack [tall1200, tall1200] cont40 =
      .error (.typeError "le not supported between float and member_descriptor") ∧
    add_to_stack stackSeven boxLen900 cont40 =
      .error (.attributeError "Stack object has no attribute boxes") :=
  ⟨rfl, rfl, rfl, rfl⟩

/-- A 600 x 400 x 300 box at the origin, 5 kg. -/
def boxH300 : Box :=
  { name := "m1", length_mm := 600, width_mm := 400, height_mm := 300,
    weight_kg := 5, pos_x_mm := 0, pos_y_mm := 0, rot_deg := 0 }

/-- A 600 x 400 x 500 box at the origin, 2 kg — same footprint and rotation as
`boxH300`, different height. -/
def boxH500 : Box :=
  { name := "m2", length_mm := 600, width_mm := 400, height_mm := 500,
    weight_kg := 2, pos_x_mm := 0, pos_y_mm := 0, rot_deg := 0 }

/-- A stack whose two member boxes have different heights (300 and 500 mm);
`__post_init__` accepts it, since heights are not validated. -/
def stackMixed : Stack := { name := "mixed", first := boxH300, rest := [boxH500] }

/-- C5 (counterexample): `Stack.total_height_mm` is the FIRST box's height
times the box count, not the sum of member heights.  The mixed-height stack is
constructible (`mkStack` accepts it), its recorded total height is
300 x 2 = 600 mm, but the sum of its member heights is 800 mm. -/
theorem stack_total_height_not_sum_counterexample :
    mkStack "mixed" [boxH300, boxH500] = .ok stackMixed ∧
    stackMixed.total_height_mm = 600 ∧
    (stackMixed.allBoxes.map Box.height_mm).sum = 800 ∧
    stackMixed.total_height_mm ≠ (stackMixed.allBoxes.map Box.height_mm).sum :=
  ⟨rfl, rfl, rfl, by decide⟩

/-- C5 (amended): a stack's total height equals its first box's height times
its box count (which equals the sum of member heights only when all member
heights agree); its total weight equals the sum of member weights; and `fits`
does not constrain heights — a box matching the first box in footprint and
rotation whose center lies within the snap tolerance fits regardless of its
height. -/
theorem stack_totals_and_fits_ignores_height (s : Stack) :
    s.total_height_mm = s.first.height_mm * (s.allBoxes.length : Int) ∧
    s.total_weight_kg = (s.allBoxes.map Box.weight_kg).sum ∧
    (∀ b : Box, b.length_mm = s.first.length_mm → b.width_mm = s.first.width_mm →
      b.rot_deg = s.first.rot_deg →
      |s.center.1 - b.center.1| ≤ (s.SNAP_TOLERANCE_MM : ℚ) →
      |s.center.2 - b.center.2| ≤ (s.SNAP_TOLERANCE_MM : ℚ) →
      s.fits b = true) := by
  refine ⟨rfl, rfl, ?_⟩
  intro b h1 h2 h3 h4 h5
  unfold Stack.fits
  simp [h1, h2, h3, h4, h5]

/-- Witness for the C5 amendment: a box 200 mm taller than the reference still
fits the mixed stack. -/
theorem stack_totals_and_fits_ignores_height_witness :
    stackMixed.fits boxH500 = true :=
  (stack_totals_and_fits_ignores_height stackMixed).2.2 boxH500 rfl rfl rfl
    (by norm_num [Stack.center, Box.center, Box.bbox, stackMixed, boxH300, boxH500])
    (by norm_num [Stack.center, Box.center, Box.bbox, stackMixed, boxH300, boxH500])

/-- A non-square 600 x 400 box at (50, 75) rotated to 90 degrees. -/
def boxRot90 : Box :=
  { name := "r", length_mm := 600, width_mm := 400, height_mm := 300,
    pos_x_mm := 50, pos_y_mm := 75, rot_deg := 90 }

/-- Single-box stack at rotation 90. -/
def stackRot90 : Stack := { name := "rstack", first := boxRot90, rest := [] }

/-- C10: for a stack at rotation 90, `Stack.bbox` returns the SAME extents as
at rotation 0 — `(x, y, x + first.length, y + first.width)` — because the
stack's derived `length_mm`/`width_mm` already swap for rotation and `bbox`
swaps them again; hence for a non-square first box the stack's bbox differs
from the first box's own bbox. -/
theorem stack_bbox_rot90_double_swap (s : Stack) (h : s.first.rot_deg = 90) :
    s.bbox = (s.first.pos_x_mm, s.first.pos_y_mm,
              s.first.pos_x_mm + s.first.length_mm,
              s.first.pos_y_mm + s.first.width_mm) ∧
    (s.first.length_mm ≠ s.first.width_mm → s.bbox ≠ s.first.bbox) := by
  have hb : s.bbox = (s.first.pos_x_mm, s.first.pos_y_mm,
      s.first.pos_x_mm + s.first.length_mm, s.first.pos_y_mm + s.first.width_mm) := by
    simp only [Stack.bbox, Stack.length_mm, Stack.width_mm, Stack.rot_deg,
      Stack.pos_x_mm, Stack.pos_y_mm, h]
    norm_num
  refine ⟨hb, ?_⟩
  intro hne heq
  rw [hb] at heq
  unfold Box.bbox at heq
  rw [if_neg (by rw [h]; norm_num)] at heq
  simp only [Prod.mk.injEq] at heq
  omega

/-- Witness for C10: the rotated single-box stack keeps the rotation-0 extents
and disagrees with its own first box's bounding box. -/
theorem stack_bbox_rot90_double_swap_witness :
    stackRot90.bbox = (stackRot90.first.pos_x_mm, stackRot90.first.pos_y_mm,
        stackRot90.first.pos_x_mm + stackRot90.first.length_mm,
        stackRot90.first.pos_y_mm + stackRot90.first.width_mm) ∧
    stackRot90.bbox ≠ stackRot90.first.bbox :=
  ⟨(stack_bbox_rot90_double_swap stackRot90 rfl).1,
   (stack_bbox_rot90_double_swap stackRot90 rfl).2 (by decide)⟩

/-- The stack invariant stated by the spec: every member box shares the first
box's length, width and rotation. -/
def StackInv (s : Stack) : Prop :=
  ∀ b ∈ s.rest,
    b.length_mm = s.first.length_mm ∧ b.width_mm = s.first.width_mm ∧
    b.rot_deg = s.first.rot_deg

instance (s : Stack) : Decidable (StackInv s) := by
  unfold StackInv
  infer_instance

/-- C9: the footprint/rotation invariant holds after every stack operation —
at construction (`mkStack`, i.e. `__post_init__`), after a successful
`add_box`, and after rotating the whole stack. -/
theorem stack_invariant_preserved :
    (∀ (n : String) (bs : List Box) (s : Stack), mkStack n bs = .ok s → StackInv s) ∧
    (∀ (s : Stack) (b : Box) (s2 : Stack), s.add_box b = .ok s2 → StackInv s → StackInv s2) ∧
    (∀ s : Stack, StackInv s → StackInv s.rotate) := by
  refine ⟨?_, ?_, ?_⟩
  · intro n bs s h
    cases bs with
    | nil => exact absurd h (by simp [mkStack])
    | cons first rest =>
      simp only [mkStack] at h
      by_cases hall : rest.all (fun b =>
          b.length_mm == first.length_mm && b.width_mm == first.width_mm
            && b.rot_deg == first.rot_deg) = true
      · rw [if_pos hall] at h
        cases h
        intro b hb
        have hb' := List.all_eq_true.mp hall b hb
        simpa [Bool.and_eq_true, beq_iff_eq, and_assoc] using hb'
      · rw [if_neg hall] at h
        exact absurd h (by simp)
  · intro s b s2 h hinv
    unfold Stack.add_box at h
    by_cases hfit : s.fits b = true
    · rw [if_neg (by simp [hfit])] at h
      cases h
      have hdims : b.length_mm = s.first.length_mm ∧ b.width_mm = s.first.width_mm ∧
          b.rot_deg = s.first.rot_deg := by
        unfold Stack.fits at hfit
        by_cases hc : (b.length_mm == s.first.length_mm && b.width_mm == s.first.width_mm
            && b.rot_deg == s.first.rot_deg) = true
        · simpa [Bool.and_eq_true, beq_iff_eq, and_assoc] using hc
        · rw [if_pos (by simp [hc])] at hfit
          exact absurd hfit (by simp)
      intro x hx
      rcases List.mem_append.mp hx with hx | hx
      · exact hinv x hx
      · rcases List.mem_singleton.mp hx with rfl
        exact hdims
    · rw [if_pos (by simp [hfit])] at h
      exact absurd h (by simp)
  · intro s hinv b hb
    have hb' : b ∈ s.rest.map Box.rotate := hb
    obtain ⟨b0, hb0, rfl⟩ := List.mem_map.mp hb'
    obtain ⟨h1, h2, h3⟩ := hinv b0 hb0
    unfold Box.rotate
    refine ⟨h1, h2, ?_⟩
    simp [Stack.rotate, Box.rotate, h3]

/-- Witness for C9: the invariant holds for the constructed three-box stack and
for a rotated stack, and is preserved by a successful `add_box`. -/
theorem stack_invariant_preserved_witness :
    StackInv stack3x800 ∧ StackInv stackMixed.rotate :=
  ⟨stack_invariant_preserved.1 "test_stack" [box800, box800, box800] stack3x800 rfl,
   stack_invariant_preserved.2.2 stackMixed (by decide)⟩

end ContainerTool
